import Mathlib

/-!
Shallow embedding of the batch ingestion engine of `langfuse-ergonomic`
(`src/batcher.rs`, `src/error.rs`), together with proofs of the claims about
its specification.

Modelling conventions:
* machine integers (`usize`, `u32`, `u16`) are modelled as `Nat`; none of the
  modelled arithmetic can overflow in the scenarios the code supports;
* `Duration` values are modelled as milliseconds (`Nat`); sleeping itself,
  jitter randomness and wall-clock reads (`last_error_ts`) are timing effects
  outside the embedding and are not modelled;
* the network is modelled as an oracle `Nat → HttpOutcome` giving the raw
  outcome of the n-th HTTP POST performed by the flush, threaded through an
  explicit call counter, so an arbitrary sequence of responses can be studied;
* a blocking `mpsc` send is modelled as eventually succeeding (the background
  task drains the channel), i.e. as an append to the queue.
-/

deriving instance DecidableEq for Except

namespace Batcher

/-- `BatchEvent` from `src/batcher.rs`: an ingestion event plus bookkeeping.
The opaque event payload is dropped; only the extracted `id` and the
serialized `size` (which is all the batching logic reads) are kept. -/
structure BatchEvent where
  id : String
  size : Nat
  retry_count : Nat
deriving DecidableEq, Repr

/-- `BackpressurePolicy` from `src/batcher.rs`. -/
inductive BackpressurePolicy where
  | Block
  | DropNew
  | DropOldest
deriving DecidableEq, Repr

/-- `BatcherConfig` from `src/batcher.rs` (durations in milliseconds). -/
structure BatcherConfig where
  max_events : Nat
  max_bytes : Nat
  flush_interval_ms : Nat
  max_retries : Nat
  initial_retry_delay_ms : Nat
  max_retry_delay_ms : Nat
  fail_fast : Bool
  max_queue_size : Nat
  backpressure_policy : BackpressurePolicy
  retry_jitter : Bool
deriving DecidableEq, Repr

/-- The `Default` impl for `BatcherConfig`. -/
def BatcherConfig.default : BatcherConfig :=
  { max_events := 100
    max_bytes := 3500000
    flush_interval_ms := 5000
    max_retries := 3
    initial_retry_delay_ms := 100
    max_retry_delay_ms := 30000
    fail_fast := false
    max_queue_size := 10000
    backpressure_policy := .Block
    retry_jitter := true }

/-- `EventError` from `src/error.rs`. -/
structure EventError where
  event_id : String
  message : String
  code : Option String
  retryable : Bool
deriving DecidableEq, Repr

/-- `IngestionResponse` from `src/error.rs`. -/
structure IngestionResponse where
  success_ids : List String
  failures : List EventError
  success_count : Nat
  failure_count : Nat
deriving DecidableEq, Repr

/-- `Error` from `src/error.rs`.  Wrapped foreign error values
(`serde_json::Error`, `reqwest::Error`) are modelled by their message. -/
inductive Error where
  | Api (msg : String)
  | Configuration (msg : String)
  | Validation (msg : String)
  | Serialization (msg : String)
  | Network (msg : String)
  | Auth (message : String) (request_id : Option String)
  | RateLimit (retry_after : Option Nat) (request_id : Option String)
  | Server (status : Nat) (message : String) (request_id : Option String)
  | Client (status : Nat) (message : String) (request_id : Option String)
  | PartialFailure (success_count : Nat) (failure_count : Nat)
      (errors : List EventError) (success_ids : List String)
  | BatchSizeExceeded (size : Nat) (max_size : Nat)
  | Backpressure (policy : BackpressurePolicy) (reason : String)
deriving DecidableEq, Repr

/-- `Error::is_retryable` from `src/error.rs`. -/
def Error.is_retryable : Error → Bool
  | .Network _ => true
  | .RateLimit _ _ => true
  | .Server _ _ _ => true
  | .PartialFailure _ _ _ _ => true
  | .Auth _ _ => false
  | .Client _ _ _ => false
  | .Validation _ => false
  | .Serialization _ => false
  | .Configuration _ => false
  | .Api _ => false
  | .BatchSizeExceeded _ _ => false
  | .Backpressure _ _ => false

/-- `Error::retry_after` from `src/error.rs` (milliseconds). -/
def Error.retry_after : Error → Option Nat
  | .RateLimit ra _ => ra
  | .Server _ _ _ => some 5000
  | .Network _ => some 1000
  | _ => none

/-- The `Display` rendering of `Error` (the `#[error(...)]` attributes in
`src/error.rs`); only used as the message text of synthesized `EventError`s,
so the `Debug`-formatted sub-fields are rendered approximately. -/
def Error.toMessage : Error → String
  | .Api m => "API error: " ++ m
  | .Configuration m => "Configuration error: " ++ m
  | .Validation m => "Validation error: " ++ m
  | .Serialization m => "Serialization error: " ++ m
  | .Network m => "Network error: " ++ m
  | .Auth m _ => "Authentication failed: " ++ m
  | .RateLimit _ _ => "Rate limit exceeded"
  | .Server s m _ => "Server error (status " ++ toString s ++ "): " ++ m
  | .Client s m _ => "Client error (status " ++ toString s ++ "): " ++ m
  | .PartialFailure s f _ _ =>
      "Partial batch failure: " ++ toString s ++ " succeeded, " ++ toString f ++ " failed"
  | .BatchSizeExceeded s m =>
      "Batch size exceeded: " ++ toString s ++ " bytes (max: " ++ toString m ++ " bytes)"
  | .Backpressure _ r => "Backpressure: " ++ r

/-- Matches `Err(Error::Client { status: 413, .. })`. -/
def isClient413 : Error → Bool
  | .Client 413 _ _ => true
  | _ => false

/-- Matches `matches!(e, Error::Auth { .. })`. -/
def isAuth : Error → Bool
  | .Auth _ _ => true
  | _ => false

/-- Sum of the serialized sizes of a list of events
(`buf.iter().map(|e| e.size).sum()`). -/
def sumSizes (l : List BatchEvent) : Nat := (l.map (·.size)).sum

/-- One iteration of the loop body of `Batcher::chunk_events`
(`src/batcher.rs` lines 554-565).  State: `(chunks, current_chunk,
current_size)`. -/
def chunkStep (max_bytes max_events : Nat)
    (st : List (List BatchEvent) × List BatchEvent × Nat) (e : BatchEvent) :
    List (List BatchEvent) × List BatchEvent × Nat :=
  if max_events ≤ st.2.1.length ∨ (max_bytes < st.2.2 + e.size ∧ st.2.1 ≠ []) then
    (st.1 ++ [st.2.1], [e], e.size)
  else
    (st.1, st.2.1 ++ [e], st.2.2 + e.size)

/-- `Batcher::chunk_events` from `src/batcher.rs`. -/
def chunk_events (events : List BatchEvent) (max_bytes max_events : Nat) :
    List (List BatchEvent) :=
  let r := events.foldl (chunkStep max_bytes max_events) ([], [], 0)
  if r.2.1 = [] then r.1 else r.1 ++ [r.2.1]

/-- The per-chunk bound of claim C1: event count within `max_events`, and
byte size within `max_bytes` except for a singleton chunk. -/
def chunkOk (max_bytes max_events : Nat) (c : List BatchEvent) : Prop :=
  c.length ≤ max_events ∧ (sumSizes c ≤ max_bytes ∨ c.length = 1)

/-- Internal invariant of the chunking fold: the in-progress chunk respects
both bounds whenever it has at least two elements, and the running size is
the sum of the in-progress chunk. -/
def chunkInv (max_bytes max_events : Nat)
    (st : List (List BatchEvent) × List BatchEvent × Nat) : Prop :=
  (∀ c ∈ st.1, chunkOk max_bytes max_events c) ∧
    st.2.1.length ≤ max_events ∧
    (2 ≤ st.2.1.length → sumSizes st.2.1 ≤ max_bytes) ∧
    st.2.2 = sumSizes st.2.1

theorem sumSizes_append (l₁ l₂ : List BatchEvent) :
    sumSizes (l₁ ++ l₂) = sumSizes l₁ + sumSizes l₂ := by
  simp [sumSizes]

theorem chunkStep_inv (max_bytes max_events : Nat) (hme : 1 ≤ max_events)
    (st : List (List BatchEvent) × List BatchEvent × Nat) (e : BatchEvent)
    (h : chunkInv max_bytes max_events st) :
    chunkInv max_bytes max_events (chunkStep max_bytes max_events st e) := by
  obtain ⟨chunks, cur, curSize⟩ := st
  obtain ⟨h1, h2, h3, h4⟩ := h
  simp only [chunkInv] at *
  unfold chunkStep
  by_cases hc : max_events ≤ cur.length ∨ (max_bytes < curSize + e.size ∧ cur ≠ [])
  · rw [if_pos (by simpa using hc)]
    refine ⟨?_, by simpa using hme, ?_, ?_⟩
    · intro c hcmem
      rcases List.mem_append.mp hcmem with hx | hx
      · exact h1 c hx
      · have hce : c = cur := by simpa using hx
        subst hce
        refine ⟨h2, ?_⟩
        rcases Nat.lt_or_ge c.length 2 with hlt | hge
        · have hl : c.length = 0 ∨ c.length = 1 := by omega
          rcases hl with hl | hl
          · left
            have hnil : c = [] := List.length_eq_zero.mp hl
            simp [hnil, sumSizes]
          · right; exact hl
        · exact Or.inl (h3 hge)
    · intro hlen; simp at hlen
    · simp [sumSizes]
  · rw [if_neg (by simpa using hc)]
    push_neg at hc
    obtain ⟨hclen, hcsz⟩ := hc
    refine ⟨h1, ?_, ?_, ?_⟩
    · simp only [List.length_append, List.length_cons, List.length_nil]
      omega
    · intro h2le
      by_cases hbig : max_bytes < curSize + e.size
      · have hnil := hcsz hbig
        simp [hnil] at h2le
      · rw [sumSizes_append]
        simp only [sumSizes, List.map_cons, List.map_nil, List.sum_cons, List.sum_nil]
        simp only [sumSizes] at h4
        omega
    · rw [sumSizes_append]; simp [sumSizes, h4]

theorem chunk_fold_inv (max_bytes max_events : Nat) (hme : 1 ≤ max_events)
    (events : List BatchEvent)
    (st : List (List BatchEvent) × List BatchEvent × Nat)
    (h : chunkInv max_bytes max_events st) :
    chunkInv max_bytes max_events
      (events.foldl (chunkStep max_bytes max_events) st) := by
  induction events generalizing st with
  | nil => exact h
  | cons e es ih =>
      exact ih _ (chunkStep_inv max_bytes max_events hme st e h)

theorem chunk_fold_flatten (max_bytes max_events : Nat) (events : List BatchEvent)
    (st : List (List BatchEvent) × List BatchEvent × Nat) :
    (events.foldl (chunkStep max_bytes max_events) st).1.flatten ++
      (events.foldl (chunkStep max_bytes max_events) st).2.1 =
    st.1.flatten ++ st.2.1 ++ events := by
  induction events generalizing st with
  | nil => simp
  | cons e es ih =>
      obtain ⟨chunks, cur, curSize⟩ := st
      simp only [List.foldl_cons]
      rw [ih]
      unfold chunkStep
      by_cases hc : max_events ≤ cur.length ∨ (max_bytes < curSize + e.size ∧ cur ≠ [])
      · rw [if_pos (by simpa using hc)]
        simp [List.flatten_append, List.append_assoc]
      · rw [if_neg (by simpa using hc)]
        simp [List.append_assoc]

/-- C1: for every envelope list and every valid pair `(max_bytes, max_events)`
(validity means the count bound admits at least one event per chunk),
`chunk_events` produces chunks whose event count is at most `max_events` and
whose cumulative byte size is at most `max_bytes` — except a chunk consisting
of a single envelope whose own size exceeds `max_bytes` — and concatenating
the chunks in order yields exactly the input list. -/
theorem chunk_events_correct (events : List BatchEvent) (max_bytes max_events : Nat)
    (hme : 1 ≤ max_events) :
    (∀ c ∈ chunk_events events max_bytes max_events,
        c.length ≤ max_events ∧ (sumSizes c ≤ max_bytes ∨ c.length = 1)) ∧
    (chunk_events events max_bytes max_events).flatten = events := by
  have hinv := chunk_fold_inv max_bytes max_events hme events ([], [], 0)
    (by refine ⟨?_, ?_, ?_, ?_⟩ <;> simp [chunkOk, sumSizes])
  have hflat := chunk_fold_flatten max_bytes max_events events ([], [], 0)
  obtain ⟨h1, h2, h3, _⟩ := hinv
  set r := events.foldl (chunkStep max_bytes max_events) ([], [], 0) with hr
  constructor
  · intro c hcmem
    unfold chunk_events at hcmem
    rw [← hr] at hcmem
    by_cases hcur : r.2.1 = []
    · rw [if_pos hcur] at hcmem
      exact h1 c hcmem
    · rw [if_neg hcur] at hcmem
      rcases List.mem_append.mp hcmem with hx | hx
      · exact h1 c hx
      · have hce : c = r.2.1 := by simpa using hx
        rw [hce]
        refine ⟨h2, ?_⟩
        rcases Nat.lt_or_ge r.2.1.length 2 with hlt | hge
        · have hl : r.2.1.length = 0 ∨ r.2.1.length = 1 := by omega
          rcases hl with hl | hl
          · exact absurd (List.length_eq_zero.mp hl) hcur
          · right; exact hl
        · exact Or.inl (h3 hge)
  · unfold chunk_events
    rw [← hr]
    by_cases hcur : r.2.1 = []
    · rw [if_pos hcur]
      simpa [hcur] using hflat
    · rw [if_neg hcur]
      simpa [List.flatten_append] using hflat

/-- The three envelopes of the repository's own `test_chunk_events` test. -/
def testEvents : List BatchEvent :=
  [{ id := "1", size := 1000, retry_count := 0 },
   { id := "2", size := 2000, retry_count := 0 },
   { id := "3", size := 1500, retry_count := 0 }]

/-- Witness for C1 at the concrete inputs of the repository's unit test. -/
theorem chunk_events_correct_witness :
    (∀ c ∈ chunk_events testEvents 3000 10,
        c.length ≤ 10 ∧ (sumSizes c ≤ 3000 ∨ c.length = 1)) ∧
    (chunk_events testEvents 3000 10).flatten = testEvents :=
  chunk_events_correct testEvents 3000 10 (by decide)

/-- Sanity check mirroring `test_chunk_events`: size-based chunking splits
the three test envelopes as `[[e1, e2], [e3]]`. -/
theorem chunk_events_size_example :
    (chunk_events testEvents 3000 10).map (·.map (·.id)) = [["1", "2"], ["3"]] := by decide

/-- Sanity check mirroring `test_chunk_events`: count-based chunking splits
the three test envelopes as `[[e1, e2], [e3]]`. -/
theorem chunk_events_count_example :
    (chunk_events testEvents 10000 2).map (·.map (·.id)) = [["1", "2"], ["3"]] := by decide

/-- `SuccessItem` of the 207 body parsed in `Batcher::send_batch_internal`. -/
structure SuccessItem where
  id : String
  status : Option Nat
deriving DecidableEq, Repr

/-- `ErrorItem` of the 207 body parsed in `Batcher::send_batch_internal`. -/
structure ErrorItem where
  id : String
  status : Option Nat
  error : Option String
  message : Option String
deriving DecidableEq, Repr

/-- `MultiStatusResponse` of the 207 body parsed in
`Batcher::send_batch_internal`. -/
structure MultiStatusResponse where
  successes : List SuccessItem
  errors : List ErrorItem
deriving DecidableEq, Repr

/-- The per-entry `EventError` built from a 207 `ErrorItem`
(`src/batcher.rs` lines 724-734). -/
def eventErrorOfItem (e : ErrorItem) : EventError :=
  { event_id := e.id
    message := ((e.message.or e.error).getD "Unknown error")
    code := e.status.map toString
    retryable := match e.status with
      | none => false
      | some s => decide (500 ≤ s) || decide (s = 429) }

/-- The raw outcome of one HTTP POST of a batch, as observed by
`Batcher::send_batch_internal`: either a transport-level failure of the
request itself, or a status code with the headers and body the code reads.
For a 207 status, `body207` is the parsed `MultiStatusResponse`
(`none` models an unparsable body); `retry_after` is the parsed
`retry-after` header in seconds; `request_id` is the `x-request-id`
header; `bodyText` is the response text used in error messages. -/
inductive HttpOutcome where
  | networkError (msg : String)
  | response (status : Nat) (body207 : Option MultiStatusResponse)
      (retry_after : Option Nat) (request_id : Option String) (bodyText : String)
deriving DecidableEq, Repr

/-- `Batcher::send_batch_internal` from `src/batcher.rs`: classify the raw
outcome of one POST of `events` into a structured result.  The construction
of the request body and the id extraction are the identity in the model
(event ids are carried directly on `BatchEvent`). -/
def send_batch_internal (config : BatcherConfig) (events : List BatchEvent)
    (out : HttpOutcome) : Except Error IngestionResponse :=
  match out with
  | .networkError msg => .error (.Network msg)
  | .response status body207 retryAfterHdr request_id bodyText =>
    if status = 200 ∨ status = 201 ∨ status = 202 then
      .ok { success_ids := events.map (·.id)
            failures := []
            success_count := events.length
            failure_count := 0 }
    else if status = 207 then
      match body207 with
      | none => .error (.Api "Failed to parse 207 response")
      | some m =>
        let success_ids := m.successes.map (·.id)
        let failures := m.errors.map eventErrorOfItem
        .ok { success_ids := success_ids
              failures := failures
              success_count := success_ids.length
              failure_count := failures.length }
    else if status = 401 ∨ status = 403 then
      .error (.Auth bodyText request_id)
    else if status = 413 then
      match events with
      | [e] => .error (.BatchSizeExceeded e.size config.max_bytes)
      | _ => .error (.Client 413 "Payload too large - will retry with smaller chunks" request_id)
    else if status = 429 then
      .error (.RateLimit (retryAfterHdr.map (· * 1000)) request_id)
    else if 500 ≤ status ∧ status ≤ 599 then
      .error (.Server status bodyText request_id)
    else
      .error (.Client status bodyText request_id)

/-- The retry loop body of `Batcher::send_batch_with_retry`
(`src/batcher.rs` lines 584-625), with the network modelled by the oracle
and the call counter `k`.  `remaining` counts the loop iterations left
(`for attempt in 0..=max_retries` runs `max_retries + 1` iterations);
`attempts` counts the `send_batch_internal` calls already made.  Sleeping,
backoff-delay bookkeeping and jitter are timing and are not modelled; the
`Retry-After` precedence rule only changes the slept delay. -/
def sendRetryAux (config : BatcherConfig) (events : List BatchEvent)
    (oracle : Nat → HttpOutcome) :
    Nat → Nat → Option Error → Nat → (Except Error IngestionResponse) × Nat × Nat
  | k, 0, last_error, attempts =>
      (.error (last_error.getD (.Api "Max retries exceeded")), k, attempts)
  | k, remaining + 1, last_error, attempts =>
      match send_batch_internal config events (oracle k) with
      | .ok response => (.ok response, k + 1, attempts + 1)
      | .error e =>
        if isClient413 e then
          (.error (.Client 413 "Payload too large" none), k + 1, attempts + 1)
        else if e.is_retryable then
          sendRetryAux config events oracle (k + 1) remaining (some e) (attempts + 1)
        else
          (.error e, k + 1, attempts + 1)

/-- `Batcher::send_batch_with_retry` from `src/batcher.rs`: besides the
result it returns the advanced network-call counter and the total number of
send attempts performed (the `retries` metric increments `attempts - 1`
times). -/
def send_batch_with_retry (config : BatcherConfig) (events : List BatchEvent)
    (oracle : Nat → HttpOutcome) (k : Nat) :
    (Except Error IngestionResponse) × Nat × Nat :=
  sendRetryAux config events oracle k (config.max_retries + 1) none 0

/-- `Metrics` counters of `BatcherMetrics` (`src/batcher.rs`), except
`last_error_ts`, which records wall-clock time and is not modelled. -/
structure Metrics where
  queued : Nat
  flushed : Nat
  failed : Nat
  dropped : Nat
  retries : Nat
deriving DecidableEq, Repr

/-- A zeroed metrics register (`BatcherMetrics::default()`). -/
def Metrics.init : Metrics :=
  { queued := 0, flushed := 0, failed := 0, dropped := 0, retries := 0 }

/-- The mutable state of one execution of `Batcher::flush_buffer`'s chunk
loop (`src/batcher.rs` lines 428-534): the swapped-out `events` vector
(mutated in place when a 207 failure is re-queued), the accumulators
`all_success_ids`, `all_failures` and `retry_queue`, the metrics register,
the network-call counter `k`, and a ghost log `sent` of the chunks handed
to `send_batch_with_retry`, kept to reason about which chunks were
transmitted. -/
structure FlushSt where
  events : List BatchEvent
  success_ids : List String
  failures : List EventError
  retry_queue : List BatchEvent
  metrics : Metrics
  k : Nat
  sent : List (List BatchEvent)
deriving DecidableEq, Repr

/-- The `events.iter_mut().find(|e| e.id == failure.event_id)` step of the
207 re-queue loop (`src/batcher.rs` lines 450-457): find the first event
with the failed id; if its `retry_count` is still below `max_retries`,
increment it in place and return the incremented event for the retry
queue. -/
def requeueOne (max_retries : Nat) (fid : String) :
    List BatchEvent → List BatchEvent × Option BatchEvent
  | [] => ([], none)
  | e :: rest =>
    if e.id = fid then
      if e.retry_count < max_retries then
        let e2 := { e with retry_count := e.retry_count + 1 }
        (e2 :: rest, some e2)
      else (e :: rest, none)
    else
      let r := requeueOne max_retries fid rest
      (e :: r.1, r.2)

/-- The `for failure in &response.failures` loop of `Batcher::flush_buffer`
(lines 448-459): walk the response's failures, re-queueing each retryable
one whose originating envelope still has retry budget.  Returns the mutated
events vector and the list of envelopes staged for the retry queue, in
push order. -/
def processFailures (max_retries : Nat) (events : List BatchEvent) :
    List EventError → List BatchEvent × List BatchEvent
  | [] => (events, [])
  | f :: fs =>
    if f.retryable then
      match requeueOne max_retries f.event_id events with
      | (events2, some e2) =>
        let r := processFailures max_retries events2 fs
        (r.1, e2 :: r.2)
      | (events2, none) => processFailures max_retries events2 fs
    else processFailures max_retries events fs

/-- The `for event in &chunk` loop of the retryable-error arm of
`Batcher::flush_buffer` (lines 484-492): each envelope with retry budget is
re-queued with its count incremented; the others only bump the `failed`
metric (returned as the second component). -/
def requeueChunk (max_retries : Nat) : List BatchEvent → List BatchEvent × Nat
  | [] => ([], 0)
  | e :: rest =>
    let r := requeueChunk max_retries rest
    if e.retry_count < max_retries then
      ({ e with retry_count := e.retry_count + 1 } :: r.1, r.2)
    else (r.1, r.2 + 1)

/-- The `Ok(response)` arm of the chunk loop (lines 436-461). -/
def applyOk (config : BatcherConfig) (st : FlushSt) (response : IngestionResponse) :
    FlushSt :=
  let r := processFailures config.max_retries st.events response.failures
  { st with
    events := r.1
    success_ids := st.success_ids ++ response.success_ids
    failures := st.failures ++ response.failures
    retry_queue := st.retry_queue ++ r.2
    metrics := { st.metrics with
      flushed := st.metrics.flushed + response.success_count
      failed := st.metrics.failed + response.failure_count } }

/-- The `Err(e) if e.is_retryable()` arm of the chunk loop (lines 473-494). -/
def applyRetryableErr (config : BatcherConfig) (st : FlushSt)
    (chunk : List BatchEvent) : FlushSt :=
  let r := requeueChunk config.max_retries chunk
  { st with
    retry_queue := st.retry_queue ++ r.1
    metrics := { st.metrics with failed := st.metrics.failed + r.2 } }

/-- The terminal `Err(e)` arm of the chunk loop when neither `Auth` nor
`fail_fast` applies (lines 512-522): every envelope of the chunk becomes a
non-retryable failure record. -/
def applyTerminalErr (config : BatcherConfig) (st : FlushSt)
    (chunk : List BatchEvent) (e : Error) : FlushSt :=
  { st with
    failures := st.failures ++ chunk.map (fun ev =>
      { event_id := ev.id
        message := e.toMessage
        code := none
        retryable := false })
    metrics := { st.metrics with failed := st.metrics.failed + chunk.length } }

/-- Processing of one chunk of the loop of `Batcher::flush_buffer`,
including the 413 bisection (lines 463-472): on `Client 413` with more than
one envelope the chunk is split at `len / 2` and the two halves are
processed in place before the rest.  `fuel` bounds the bisection depth; it
is initialized to the chunk's length, which suffices because a split
requires at least two envelopes and both halves are strictly shorter, so
the `fuel = 0` arm (which aborts with the 413 error) is unreachable from
`flushChunks`.  Returns the updated state and `some e` when the flush must
abort with error `e` (`Auth`, or any terminal error under `fail_fast`). -/
def processChunk (config : BatcherConfig) (oracle : Nat → HttpOutcome) :
    Nat → List BatchEvent → FlushSt → FlushSt × Option Error
  | fuel, chunk, st =>
    let s := send_batch_with_retry config chunk oracle st.k
    let st1 := { st with
      k := s.2.1
      sent := st.sent ++ [chunk]
      metrics := { st.metrics with retries := st.metrics.retries + (s.2.2 - 1) } }
    match s.1 with
    | .ok response => (applyOk config st1 response, none)
    | .error e =>
      if isClient413 e ∧ 1 < chunk.length then
        match fuel with
        | 0 => (st1, some e)
        | fuel' + 1 =>
          let mid := chunk.length / 2
          let r := processChunk config oracle fuel' (chunk.take mid) st1
          match r.2 with
          | some e2 => (r.1, some e2)
          | none => processChunk config oracle fuel' (chunk.drop mid) r.1
      else if e.is_retryable then
        (applyRetryableErr config st1 chunk, none)
      else if isAuth e ∨ config.fail_fast then
        ({ st1 with metrics := { st1.metrics with
            failed := st1.metrics.failed + chunk.length } }, some e)
      else
        (applyTerminalErr config st1 chunk e, none)

/-- The `while chunk_idx < chunks.len()` loop of `Batcher::flush_buffer`
(lines 432-525), processing chunks in order and stopping at the first
aborting error. -/
def flushChunks (config : BatcherConfig) (oracle : Nat → HttpOutcome) :
    List (List BatchEvent) → FlushSt → FlushSt × Option Error
  | [], st => (st, none)
  | chunk :: rest, st =>
    let r := processChunk config oracle chunk.length chunk st
    match r.2 with
    | some e => (r.1, some e)
    | none => flushChunks config oracle rest r.1

/-- The zero result returned by a flush of an empty buffer. -/
def emptyResponse : IngestionResponse :=
  { success_ids := [], failures := [], success_count := 0, failure_count := 0 }

/-- The outcome of one `Batcher::flush_buffer` call: the new buffer
contents (the staged retry queue — dropped when the flush aborts), the
updated metrics, the returned result, the advanced network-call counter,
and the ghost log of transmitted chunks. -/
structure FlushResult where
  buffer : List BatchEvent
  metrics : Metrics
  result : Except Error IngestionResponse
  k : Nat
  sent : List (List BatchEvent)
deriving DecidableEq, Repr

/-- `Batcher::flush_buffer` from `src/batcher.rs`: swap the buffer out,
zero the `queued` metric, chunk, process every chunk, then re-queue the
staged retries (or abort, dropping them, on `Auth`/`fail_fast`). -/
def flush_buffer (config : BatcherConfig) (oracle : Nat → HttpOutcome)
    (buffer : List BatchEvent) (metrics : Metrics) (k : Nat) : FlushResult :=
  let metrics0 : Metrics := { metrics with queued := 0 }
  if buffer = [] then
    { buffer := [], metrics := metrics0, result := .ok emptyResponse, k := k, sent := [] }
  else
    let chunks := chunk_events buffer config.max_bytes config.max_events
    let r := flushChunks config oracle chunks
      { events := buffer, success_ids := [], failures := [], retry_queue := []
        metrics := metrics0, k := k, sent := [] }
    match r.2 with
    | some e =>
      { buffer := [], metrics := r.1.metrics, result := .error e, k := r.1.k, sent := r.1.sent }
    | none =>
      { buffer := r.1.retry_queue
        metrics := { r.1.metrics with
          queued := r.1.metrics.queued + r.1.retry_queue.length }
        result := .ok { success_ids := r.1.success_ids
                        failures := r.1.failures
                        success_count := r.1.success_ids.length
                        failure_count := r.1.failures.length }
        k := r.1.k
        sent := r.1.sent }

theorem eventErrorOfItem_retryable_iff (item : ErrorItem) :
    (eventErrorOfItem item).retryable = true ↔
      ∃ s, item.status = some s ∧ (500 ≤ s ∨ s = 429) := by
  unfold eventErrorOfItem
  cases hs : item.status with
  | none => simp
  | some s => simp

/-- C7: when classifying a 207 multi-status response, the `i`-th entry of
the `errors` array yields the `i`-th failure of the result, and that
failure is marked retryable if and only if the entry's `status` field is
present and is ≥ 500 or equals 429. -/
theorem multistatus_entry_retryable_iff (config : BatcherConfig)
    (events : List BatchEvent) (m : MultiStatusResponse) (ra : Option Nat)
    (rid : Option String) (body : String) (resp : IngestionResponse)
    (hok : send_batch_internal config events (.response 207 (some m) ra rid body) = .ok resp)
    (i : Nat) (item : ErrorItem) (hi : m.errors[i]? = some item) :
    resp.failures[i]? = some (eventErrorOfItem item) ∧
      ((eventErrorOfItem item).retryable = true ↔
        ∃ s, item.status = some s ∧ (500 ≤ s ∨ s = 429)) := by
  refine ⟨?_, eventErrorOfItem_retryable_iff item⟩
  simp only [send_batch_internal] at hok
  norm_num at hok
  rw [← hok]
  simp [hi]

/-- A concrete 207 body with one `status=500` entry and one `status=400`
entry, as in the spec's testable property for claim C7. -/
def m207ex : MultiStatusResponse :=
  { successes := []
    errors := [{ id := "a", status := some 500, error := none, message := some "ise" },
               { id := "b", status := some 400, error := none, message := some "bad" }] }

/-- Witness for C7: in the concrete 207 body `m207ex`, the `status=500`
entry is classified retryable (and the theorem's iff holds there). -/
theorem multistatus_entry_retryable_witness :
    ((send_batch_internal BatcherConfig.default [] (.response 207 (some m207ex) none none "")).toOption.getD emptyResponse).failures[0]? =
        some (eventErrorOfItem { id := "a", status := some 500, error := none, message := some "ise" }) ∧
      ((eventErrorOfItem { id := "a", status := some 500, error := none, message := some "ise" }).retryable = true ↔
        ∃ s, ({ id := "a", status := some 500, error := none, message := some "ise" } : ErrorItem).status = some s ∧
          (500 ≤ s ∨ s = 429)) :=
  multistatus_entry_retryable_iff BatcherConfig.default [] m207ex none none ""
    ((send_batch_internal BatcherConfig.default [] (.response 207 (some m207ex) none none "")).toOption.getD emptyResponse)
    (by decide) 0 _ (by decide)

/-- Sanity check of the spec's concrete cases for C7: `status=500` is
retryable, `status=400` is not. -/
theorem multistatus_500_400_example :
    (eventErrorOfItem { id := "a", status := some 500, error := none, message := none }).retryable = true ∧
    (eventErrorOfItem { id := "b", status := some 400, error := none, message := none }).retryable = false := by
  decide

/-- C10: a 207 error entry with an absent `status` field yields an
`EventError` that is not retryable (and is therefore never re-queued by
the failure sweep), has no code, and whose message falls back to the
entry's `message` field, else its `error` field, else "Unknown error". -/
theorem multistatus_missing_status_terminal (item : ErrorItem)
    (h : item.status = none) :
    (eventErrorOfItem item).retryable = false ∧
    (eventErrorOfItem item).code = none ∧
    (eventErrorOfItem item).message = item.message.getD (item.error.getD "Unknown error") ∧
    (∀ max_retries events,
      processFailures max_retries events [eventErrorOfItem item] = (events, [])) := by
  refine ⟨?_, ?_, ?_, ?_⟩
  · simp [eventErrorOfItem, h]
  · simp [eventErrorOfItem, h]
  · simp only [eventErrorOfItem]
    cases item.message <;> cases item.error <;> simp [Option.or]
  · intro maxR events
    have hr : (eventErrorOfItem item).retryable = false := by simp [eventErrorOfItem, h]
    simp [processFailures, hr]

/-- Witness for C10 at a concrete entry with absent status and absent
message. -/
theorem multistatus_missing_status_witness :
    (eventErrorOfItem { id := "w", status := none, error := some "oops", message := none }).retryable = false ∧
    (eventErrorOfItem { id := "w", status := none, error := some "oops", message := none }).code = none ∧
    (eventErrorOfItem { id := "w", status := none, error := some "oops", message := none }).message =
      (none : Option String).getD ((some "oops").getD "Unknown error") ∧
    (∀ max_retries events,
      processFailures max_retries events
        [eventErrorOfItem { id := "w", status := none, error := some "oops", message := none }] = (events, [])) :=
  multistatus_missing_status_terminal { id := "w", status := none, error := some "oops", message := none } rfl

theorem sendRetryAux_attempts_le (config : BatcherConfig) (events : List BatchEvent)
    (oracle : Nat → HttpOutcome) :
    ∀ remaining k last_error attempts,
      (sendRetryAux config events oracle k remaining last_error attempts).2.2 ≤
        attempts + remaining := by
  intro remaining
  induction remaining with
  | zero => intro k le a; simp [sendRetryAux]
  | succ r ih =>
      intro k le a
      unfold sendRetryAux
      cases send_batch_internal config events (oracle k) with
      | ok response => simp
      | error e =>
          by_cases h413 : isClient413 e = true
          · simp [h413]
          · simp only [h413, Bool.false_eq_true, if_false]
            by_cases hre : e.is_retryable = true
            · simp only [hre, if_true]
              have := ih (k + 1) (some e) (a + 1)
              omega
            · simp [hre]

/-- The configuration of the C6 counterexample: one retry allowed. -/
def cfgRetryCE : BatcherConfig := { BatcherConfig.default with max_retries := 1 }

/-- The always-500 oracle outcome used in counterexamples. -/
def serverDown : HttpOutcome := .response 500 none none none "internal error"

/-- C6 counterexample: with `max_retries = 1` and a server that always
returns 500, `send_batch_with_retry` performs 2 send attempts — more than
`max_retries` — because `for attempt in 0..=max_retries` runs
`max_retries + 1` iterations. -/
theorem send_batch_attempts_counterexample :
    ¬ ((send_batch_with_retry cfgRetryCE
          [{ id := "e", size := 10, retry_count := 0 }] (fun _ => serverDown) 0).2.2
        ≤ cfgRetryCE.max_retries) := by
  decide

/-- C6 amended: `send_batch_with_retry` performs at most
`max_retries + 1` send attempts in total for one chunk — one initial
attempt plus up to `max_retries` retries. -/
theorem send_batch_attempts_le (config : BatcherConfig) (events : List BatchEvent)
    (oracle : Nat → HttpOutcome) (k : Nat) :
    (send_batch_with_retry config events oracle k).2.2 ≤ config.max_retries + 1 := by
  simpa using sendRetryAux_attempts_le config events oracle (config.max_retries + 1) k none 0

theorem send_batch_with_retry_auth (config : BatcherConfig) (events : List BatchEvent)
    (oracle : Nat → HttpOutcome) (k : Nat) (msg : String) (rid : Option String)
    (h : send_batch_internal config events (oracle k) = .error (.Auth msg rid)) :
    send_batch_with_retry config events oracle k = (.error (.Auth msg rid), k + 1, 1) := by
  unfold send_batch_with_retry sendRetryAux
  rw [h]
  simp [isClient413, Error.is_retryable]

theorem processChunk_auth (config : BatcherConfig) (oracle : Nat → HttpOutcome)
    (chunk : List BatchEvent) (msg : String) (rid : Option String)
    (fuel : Nat) (st : FlushSt)
    (h : send_batch_internal config chunk (oracle st.k) = .error (.Auth msg rid)) :
    processChunk config oracle fuel chunk st =
      ({ st with
          k := st.k + 1
          sent := st.sent ++ [chunk]
          metrics := { st.metrics with failed := st.metrics.failed + chunk.length } },
        some (.Auth msg rid)) := by
  unfold processChunk
  rw [send_batch_with_retry_auth config chunk oracle st.k msg rid h]
  simp [isClient413, Error.is_retryable, isAuth]

/-- C3: whenever sending a chunk yields an `Auth` error (HTTP 401/403),
exactly one attempt is made for that chunk regardless of `max_retries`
(the network-call counter advances by exactly 1 and no retry is recorded),
the whole flush aborts with that error for every value of `fail_fast`, and
the remaining chunks are never transmitted (the `sent` log gains only the
auth-failing chunk). -/
theorem auth_error_aborts_flush (config : BatcherConfig) (oracle : Nat → HttpOutcome)
    (chunk : List BatchEvent) (msg : String) (rid : Option String) :
    (∀ k, send_batch_internal config chunk (oracle k) = .error (.Auth msg rid) →
      send_batch_with_retry config chunk oracle k = (.error (.Auth msg rid), k + 1, 1)) ∧
    (∀ rest st, send_batch_internal config chunk (oracle st.k) = .error (.Auth msg rid) →
      flushChunks config oracle (chunk :: rest) st =
        ({ st with
            k := st.k + 1
            sent := st.sent ++ [chunk]
            metrics := { st.metrics with failed := st.metrics.failed + chunk.length } },
          some (.Auth msg rid))) ∧
    (∀ buffer metrics k rest, buffer ≠ [] →
      chunk_events buffer config.max_bytes config.max_events = chunk :: rest →
      send_batch_internal config chunk (oracle k) = .error (.Auth msg rid) →
      (flush_buffer config oracle buffer metrics k).result = .error (.Auth msg rid) ∧
      (flush_buffer config oracle buffer metrics k).sent = [chunk]) := by
  have hflush : ∀ rest st, send_batch_internal config chunk (oracle st.k) = .error (.Auth msg rid) →
      flushChunks config oracle (chunk :: rest) st =
        ({ st with
            k := st.k + 1
            sent := st.sent ++ [chunk]
            metrics := { st.metrics with failed := st.metrics.failed + chunk.length } },
          some (.Auth msg rid)) := by
    intro rest st h
    unfold flushChunks
    rw [processChunk_auth config oracle chunk msg rid chunk.length st h]
  refine ⟨fun k h => send_batch_with_retry_auth config chunk oracle k msg rid h, hflush, ?_⟩
  intro buffer metrics k rest hb hchunks h
  have h2 := hflush rest
    { events := buffer, success_ids := [], failures := [], retry_queue := []
      metrics := { metrics with queued := 0 }, k := k, sent := [] } h
  simp only [flush_buffer, if_neg hb, hchunks, h2]
  exact ⟨trivial, by simp⟩

/-- Every envelope of `l` has been re-queued at least once and within the
retry budget. -/
def rcBounded (max_retries : Nat) (l : List BatchEvent) : Prop :=
  ∀ e ∈ l, 0 < e.retry_count ∧ e.retry_count ≤ max_retries

theorem requeueOne_bound (max_retries : Nat) (fid : String) :
    ∀ (l : List BatchEvent) (e2 : BatchEvent),
      (requeueOne max_retries fid l).2 = some e2 →
      0 < e2.retry_count ∧ e2.retry_count ≤ max_retries := by
  intro l
  induction l with
  | nil => intro e2 h; simp [requeueOne] at h
  | cons e rest ih =>
      intro e2 h
      unfold requeueOne at h
      by_cases hid : e.id = fid
      · rw [if_pos hid] at h
        by_cases hrc : e.retry_count < max_retries
        · rw [if_pos hrc] at h
          simp only [Option.some.injEq] at h
          subst h
          simp only []
          omega
        · rw [if_neg hrc] at h; simp at h
      · rw [if_neg hid] at h
        simp only [] at h
        exact ih e2 h

theorem processFailures_bound (max_retries : Nat) :
    ∀ (fs : List EventError) (events : List BatchEvent),
      rcBounded max_retries (processFailures max_retries events fs).2 := by
  intro fs
  induction fs with
  | nil => intro events e h; simp [processFailures] at h
  | cons f fs ih =>
      intro events e h
      unfold processFailures at h
      by_cases hr : f.retryable = true
      · rw [if_pos hr] at h
        rcases hq : requeueOne max_retries f.event_id events with ⟨events2, o⟩
        rw [hq] at h
        cases o with
        | none => exact ih events2 e h
        | some e2 =>
            simp only [List.mem_cons] at h
            rcases h with h | h
            · subst h
              exact requeueOne_bound max_retries f.event_id events e
                (by rw [hq])
            · exact ih events2 e h
      · rw [if_neg hr] at h
        exact ih events e h

theorem requeueChunk_bound (max_retries : Nat) :
    ∀ (chunk : List BatchEvent), rcBounded max_retries (requeueChunk max_retries chunk).1 := by
  intro chunk
  induction chunk with
  | nil => intro e h; simp [requeueChunk] at h
  | cons x rest ih =>
      intro e h
      unfold requeueChunk at h
      by_cases hrc : x.retry_count < max_retries
      · simp only [hrc, if_true, List.mem_cons] at h
        rcases h with h | h
        · subst h; simp only []; omega
        · exact ih e h
      · simp only [hrc, if_false] at h
        exact ih e h

theorem processChunk_bound (config : BatcherConfig) (oracle : Nat → HttpOutcome) :
    ∀ (fuel : Nat) (chunk : List BatchEvent) (st : FlushSt),
      rcBounded config.max_retries st.retry_queue →
      rcBounded config.max_retries (processChunk config oracle fuel chunk st).1.retry_queue := by
  intro fuel
  induction fuel with
  | zero =>
      intro chunk st hst
      unfold processChunk
      rcases hs : (send_batch_with_retry config chunk oracle st.k).1 with e | response
      · simp only [hs]
        by_cases h413 : isClient413 e = true ∧ 1 < chunk.length
        · simp only [if_pos h413]
          exact hst
        · simp only [if_neg h413]
          by_cases hre : e.is_retryable = true
          · simp only [hre, if_true, applyRetryableErr]
            intro x hx
            rcases List.mem_append.mp hx with hx | hx
            · exact hst x hx
            · exact requeueChunk_bound config.max_retries chunk x hx
          · simp only [hre, Bool.false_eq_true, if_false]
            by_cases hab : isAuth e = true ∨ config.fail_fast = true
            · simp only [if_pos hab]; exact hst
            · simp only [if_neg hab, applyTerminalErr]; exact hst
      · simp only [hs, applyOk]
        intro x hx
        rcases List.mem_append.mp hx with hx | hx
        · exact hst x hx
        · exact processFailures_bound config.max_retries response.failures st.events x hx
  | succ fuel ih =>
      intro chunk st hst
      unfold processChunk
      rcases hs : (send_batch_with_retry config chunk oracle st.k).1 with e | response
      · simp only [hs]
        by_cases h413 : isClient413 e = true ∧ 1 < chunk.length
        · simp only [if_pos h413]
          rcases hr : (processChunk config oracle fuel
              (chunk.take (chunk.length / 2))
              { st with
                  k := (send_batch_with_retry config chunk oracle st.k).2.1
                  sent := st.sent ++ [chunk]
                  metrics := { st.metrics with retries := st.metrics.retries +
                    ((send_batch_with_retry config chunk oracle st.k).2.2 - 1) } }).2
            with _ | e2
          · have h1 := ih (chunk.take (chunk.length / 2))
              { st with
                  k := (send_batch_with_retry config chunk oracle st.k).2.1
                  sent := st.sent ++ [chunk]
                  metrics := { st.metrics with retries := st.metrics.retries +
                    ((send_batch_with_retry config chunk oracle st.k).2.2 - 1) } } hst
            simp only [hr]
            exact ih (chunk.drop (chunk.length / 2)) _ h1
          · simp only [hr]
            exact ih (chunk.take (chunk.length / 2)) _ hst
        · simp only [if_neg h413]
          by_cases hre : e.is_retryable = true
          · simp only [hre, if_true, applyRetryableErr]
            intro x hx
            rcases List.mem_append.mp hx with hx | hx
            · exact hst x hx
            · exact requeueChunk_bound config.max_retries chunk x hx
          · simp only [hre, Bool.false_eq_true, if_false]
            by_cases hab : isAuth e = true ∨ config.fail_fast = true
            · simp only [if_pos hab]; exact hst
            · simp only [if_neg hab, applyTerminalErr]; exact hst
      · simp only [hs, applyOk]
        intro x hx
        rcases List.mem_append.mp hx with hx | hx
        · exact hst x hx
        · exact processFailures_bound config.max_retries response.failures st.events x hx

theorem flushChunks_bound (config : BatcherConfig) (oracle : Nat → HttpOutcome) :
    ∀ (chunks : List (List BatchEvent)) (st : FlushSt),
      rcBounded config.max_retries st.retry_queue →
      rcBounded config.max_retries (flushChunks config oracle chunks st).1.retry_queue := by
  intro chunks
  induction chunks with
  | nil => intro st hst; exact hst
  | cons chunk rest ih =>
      intro st hst
      unfold flushChunks
      rcases hr : (processChunk config oracle chunk.length chunk st).2 with _ | e
      · simp only [hr]
        exact ih _ (processChunk_bound config oracle chunk.length chunk st hst)
      · simp only [hr]
        exact processChunk_bound config oracle chunk.length chunk st hst

/-- C2: after any flush, every envelope that the flush re-queued into the
buffer was re-queued with a positive retry count that is at most
`max_retries`; in particular an envelope whose `retry_count` had already
reached `max_retries` is never pushed onto the retry re-queue (both
re-queue sites guard on `retry_count < max_retries` before incrementing),
so `retry_count` never exceeds `max_retries` on any envelope held by the
batcher. -/
theorem flush_retry_count_bounded (config : BatcherConfig)
    (oracle : Nat → HttpOutcome) (buffer : List BatchEvent) (metrics : Metrics)
    (k : Nat) (e : BatchEvent)
    (he : e ∈ (flush_buffer config oracle buffer metrics k).buffer) :
    0 < e.retry_count ∧ e.retry_count ≤ config.max_retries := by
  unfold flush_buffer at he
  by_cases hb : buffer = []
  · rw [if_pos hb] at he
    simp at he
  · rw [if_neg hb] at he
    rcases hr : (flushChunks config oracle
        (chunk_events buffer config.max_bytes config.max_events)
        { events := buffer, success_ids := [], failures := [], retry_queue := []
          metrics := { metrics with queued := 0 }, k := k, sent := [] }).2 with _ | err
    · simp only [hr] at he
      exact flushChunks_bound config oracle
        (chunk_events buffer config.max_bytes config.max_events)
        { events := buffer, success_ids := [], failures := [], retry_queue := []
          metrics := { metrics with queued := 0 }, k := k, sent := [] }
        (by intro x hx; simp at hx) e he
    · simp only [hr] at he
      simp at he

/-- The envelope used in the C2 witness. -/
def evRetryW : BatchEvent := { id := "w2", size := 7, retry_count := 0 }

/-- Witness for C2: with an always-500 server, the single envelope is
re-queued with retry count 1, which is positive and within the default
budget of 3. -/
theorem flush_retry_count_bounded_witness :
    { evRetryW with retry_count := 1 } ∈
      (flush_buffer BatcherConfig.default (fun _ => serverDown) [evRetryW] Metrics.init 0).buffer ∧
    (0 < ({ evRetryW with retry_count := 1 } : BatchEvent).retry_count ∧
      ({ evRetryW with retry_count := 1 } : BatchEvent).retry_count ≤ BatcherConfig.default.max_retries) :=
  ⟨by decide,
    flush_retry_count_bounded BatcherConfig.default (fun _ => serverDown) [evRetryW]
      Metrics.init 0 { evRetryW with retry_count := 1 } (by decide)⟩

/-- The envelope and always-401 oracle used in the C3 witness. -/
def evAuthW : BatchEvent := { id := "w3", size := 5, retry_count := 0 }

/-- Witness for C3: with a server that always answers 401, a flush of one
envelope returns the `Auth` error and transmitted exactly one chunk. -/
theorem auth_error_aborts_flush_witness :
    (flush_buffer BatcherConfig.default
        (fun _ => .response 401 none none none "denied") [evAuthW] Metrics.init 0).result =
      .error (.Auth "denied" none) ∧
    (flush_buffer BatcherConfig.default
        (fun _ => .response 401 none none none "denied") [evAuthW] Metrics.init 0).sent =
      [[evAuthW]] :=
  (auth_error_aborts_flush BatcherConfig.default
      (fun _ => .response 401 none none none "denied") [evAuthW] "denied" none).2.2
    [evAuthW] Metrics.init 0 [] (by decide) (by decide) (by decide)

/-- The envelope used in the C4 counterexample. -/
def evCountCE : BatchEvent := { id := "c4", size := 10, retry_count := 0 }

/-- C4 counterexample: with an always-500 server and the default
configuration, a flush of one envelope re-queues it for retry and returns
a result with `success_count + failure_count = 0`, although one envelope
entered the flush's chunk set — re-queued envelopes are counted in neither
total. -/
theorem flush_count_counterexample :
    (flush_buffer BatcherConfig.default (fun _ => serverDown) [evCountCE] Metrics.init 0).result =
      .ok emptyResponse ∧
    ([evCountCE] : List BatchEvent).length = 1 ∧
    (flush_buffer BatcherConfig.default (fun _ => serverDown) [evCountCE] Metrics.init 0).buffer.length = 1 := by
  decide

/-- Outcomes under which every chunk send resolves on the first attempt as
either a full success (2xx) or a terminal client error that is not auth
(401/403), not 413 and not retryable (429/5xx); network errors and 207
bodies are excluded. -/
def okOrTerminal : HttpOutcome → Prop
  | .networkError _ => False
  | .response s _ _ _ _ =>
      s = 200 ∨ s = 201 ∨ s = 202 ∨
        (s ≠ 200 ∧ s ≠ 201 ∧ s ≠ 202 ∧ s ≠ 207 ∧ s ≠ 401 ∧ s ≠ 403 ∧ s ≠ 413 ∧
          s ≠ 429 ∧ ¬(500 ≤ s ∧ s ≤ 599))

instance (o : HttpOutcome) : Decidable (okOrTerminal o) :=
  match o with
  | .networkError _ => isFalse (fun h => h)
  | .response s _ _ _ _ =>
      inferInstanceAs (Decidable (s = 200 ∨ s = 201 ∨ s = 202 ∨
        (s ≠ 200 ∧ s ≠ 201 ∧ s ≠ 202 ∧ s ≠ 207 ∧ s ≠ 401 ∧ s ≠ 403 ∧ s ≠ 413 ∧
          s ≠ 429 ∧ ¬(500 ≤ s ∧ s ≤ 599))))

theorem isClient413_false_of_ne (s : Nat) (m : String) (r : Option String)
    (h : s ≠ 413) : isClient413 (Error.Client s m r) = false := by
  unfold isClient413
  split
  · rename_i heq
    injection heq with h1 h2 h3
    exact absurd h1 h
  · rfl

/-- The full-success response for a chunk (the 200/201/202 classification
of `send_batch_internal`). -/
def fullSuccess (events : List BatchEvent) : IngestionResponse :=
  { success_ids := events.map (·.id)
    failures := []
    success_count := events.length
    failure_count := 0 }

theorem send_okOrTerminal (config : BatcherConfig) (events : List BatchEvent)
    (oracle : Nat → HttpOutcome) (k : Nat) (h : okOrTerminal (oracle k)) :
    send_batch_with_retry config events oracle k = (.ok (fullSuccess events), k + 1, 1) ∨
    ∃ s msg rid, s ≠ 413 ∧
      send_batch_with_retry config events oracle k = (.error (.Client s msg rid), k + 1, 1) := by
  rcases ho : oracle k with msg | ⟨s, body207, ra, rid, body⟩
  · rw [ho] at h; exact absurd h (fun hf => hf)
  · rw [ho] at h
    rcases h with h | h | h | h
    · left
      unfold send_batch_with_retry sendRetryAux send_batch_internal
      rw [ho]
      simp [h, fullSuccess]
    · left
      unfold send_batch_with_retry sendRetryAux send_batch_internal
      rw [ho]
      simp [h, fullSuccess]
    · left
      unfold send_batch_with_retry sendRetryAux send_batch_internal
      rw [ho]
      simp [h, fullSuccess]
    · right
      obtain ⟨h200, h201, h202, h207, h401, h403, h413, h429, h5xx⟩ := h
      refine ⟨s, body, rid, h413, ?_⟩
      have hnot2xx : ¬(s = 200 ∨ s = 201 ∨ s = 202) := by
        rintro (h | h | h) <;> omega
      have hnotauth : ¬(s = 401 ∨ s = 403) := by
        rintro (h | h) <;> omega
      have hsend : send_batch_internal config events (oracle k) =
          .error (.Client s body rid) := by
        rw [ho]
        simp only [send_batch_internal]
        rw [if_neg hnot2xx, if_neg h207, if_neg hnotauth, if_neg h413, if_neg h429,
          if_neg h5xx]
      unfold send_batch_with_retry sendRetryAux
      rw [hsend]
      simp [isClient413_false_of_ne s body rid h413, Error.is_retryable]

theorem chunk_events_flatten (events : List BatchEvent) (max_bytes max_events : Nat) :
    (chunk_events events max_bytes max_events).flatten = events := by
  have hflat := chunk_fold_flatten max_bytes max_events events ([], [], 0)
  unfold chunk_events
  by_cases hcur : (events.foldl (chunkStep max_bytes max_events) ([], [], 0)).2.1 = []
  · rw [if_pos hcur]
    simpa [hcur] using hflat
  · rw [if_neg hcur]
    simpa [List.flatten_append] using hflat

theorem processChunk_count (config : BatcherConfig) (oracle : Nat → HttpOutcome)
    (hff : config.fail_fast = false) (hor : ∀ n, okOrTerminal (oracle n)) :
    ∀ (fuel : Nat) (chunk : List BatchEvent) (st : FlushSt),
      (processChunk config oracle fuel chunk st).2 = none ∧
      (processChunk config oracle fuel chunk st).1.success_ids.length +
          (processChunk config oracle fuel chunk st).1.failures.length =
        st.success_ids.length + st.failures.length + chunk.length := by
  intro fuel chunk st
  rcases send_okOrTerminal config chunk oracle st.k (hor st.k) with hs | ⟨s, msg, rid, h413, hs⟩
  · unfold processChunk
    rw [hs]
    refine ⟨rfl, ?_⟩
    simp [applyOk, processFailures, fullSuccess]
    omega
  · unfold processChunk
    rw [hs]
    have h1 : isClient413 (Error.Client s msg rid) = false :=
      isClient413_false_of_ne s msg rid h413
    refine ⟨?_, ?_⟩ <;>
      simp [h1, Error.is_retryable, isAuth, hff, applyTerminalErr] <;> omega

theorem flushChunks_count (config : BatcherConfig) (oracle : Nat → HttpOutcome)
    (hff : config.fail_fast = false) (hor : ∀ n, okOrTerminal (oracle n)) :
    ∀ (chunks : List (List BatchEvent)) (st : FlushSt),
      (flushChunks config oracle chunks st).2 = none ∧
      (flushChunks config oracle chunks st).1.success_ids.length +
          (flushChunks config oracle chunks st).1.failures.length =
        st.success_ids.length + st.failures.length + (chunks.map List.length).sum := by
  intro chunks
  induction chunks with
  | nil => intro st; exact ⟨rfl, by simp [flushChunks]⟩
  | cons chunk rest ih =>
      intro st
      obtain ⟨hnone, hcount⟩ := processChunk_count config oracle hff hor chunk.length chunk st
      unfold flushChunks
      simp only [hnone]
      obtain ⟨hnone2, hcount2⟩ := ih (processChunk config oracle chunk.length chunk st).1
      refine ⟨hnone2, ?_⟩
      rw [hcount2, hcount]
      simp
      omega

/-- C4 amended: re-queued envelopes (and envelopes dropped after
exhausting their retry budget on a chunk-level retryable transport error)
are counted in neither total of the flush result, so the claimed equation
holds only when no envelope takes those paths: if every chunk send
resolves as a full success or as a terminal non-auth, non-413,
non-retryable client error (and `fail_fast` is off, so no abort occurs),
then `success_count + failure_count` of the returned result equals the
number of envelopes that entered the flush's chunk set. -/
theorem flush_count_amended (config : BatcherConfig) (oracle : Nat → HttpOutcome)
    (buffer : List BatchEvent) (metrics : Metrics) (k : Nat) (resp : IngestionResponse)
    (hff : config.fail_fast = false) (hor : ∀ n, okOrTerminal (oracle n))
    (hres : (flush_buffer config oracle buffer metrics k).result = .ok resp) :
    resp.success_count + resp.failure_count = buffer.length := by
  by_cases hb : buffer = []
  · subst hb
    unfold flush_buffer at hres
    simp only [if_pos rfl] at hres
    injection hres with hres
    subst hres
    simp [emptyResponse]
  · unfold flush_buffer at hres
    rw [if_neg hb] at hres
    obtain ⟨hnone, hcount⟩ := flushChunks_count config oracle hff hor
      (chunk_events buffer config.max_bytes config.max_events)
      { events := buffer, success_ids := [], failures := [], retry_queue := []
        metrics := { metrics with queued := 0 }, k := k, sent := [] }
    simp only [hnone] at hres
    injection hres with hres
    subst hres
    simp only []
    rw [hcount]
    have hlen : ((chunk_events buffer config.max_bytes config.max_events).map List.length).sum =
        buffer.length := by
      conv_rhs => rw [← chunk_events_flatten buffer config.max_bytes config.max_events]
      rw [List.length_flatten]
    simp [hlen]

/-- The always-200 outcome is covered by `okOrTerminal`. -/
theorem okOrTerminal_200 : okOrTerminal (HttpOutcome.response 200 none none none "") := by
  decide

/-- The envelopes used in the C4 amended-claim witness. -/
def evW41 : BatchEvent := { id := "a4", size := 5, retry_count := 0 }

/-- Second envelope used in the C4 amended-claim witness. -/
def evW42 : BatchEvent := { id := "b4", size := 6, retry_count := 0 }

/-- Witness for the amended C4 at a concrete full-success flush of two
envelopes. -/
theorem flush_count_amended_witness :
    ({ success_ids := ["a4", "b4"], failures := [], success_count := 2, failure_count := 0 } : IngestionResponse).success_count +
      ({ success_ids := ["a4", "b4"], failures := [], success_count := 2, failure_count := 0 } : IngestionResponse).failure_count =
      ([evW41, evW42] : List BatchEvent).length :=
  flush_count_amended BatcherConfig.default (fun _ => .response 200 none none none "")
    [evW41, evW42] Metrics.init 0
    { success_ids := ["a4", "b4"], failures := [], success_count := 2, failure_count := 0 }
    rfl (fun _ => okOrTerminal_200) (by decide)

/-- The envelope used in the C5 counterexample. -/
def evReqCE : BatchEvent := { id := "e5", size := 10, retry_count := 0 }

/-- The 207 oracle used in the C5 counterexample: one retryable
(`status = 500`) error entry for envelope `e5`. -/
def oracle207CE : Nat → HttpOutcome := fun _ =>
  .response 207
    (some { successes := []
            errors := [{ id := "e5", status := some 500, error := none, message := some "boom" }] })
    none none ""

/-- C5 counterexample: a 207 response marks envelope `e5` with a retryable
`status = 500` failure; the flush re-queues it into the buffer for a later
flush AND reports it in the returned result's failures list — contradicting
the claim that a re-queued envelope never appears in the immediate
failures list. -/
theorem flush_requeued_in_failures_counterexample :
    (flush_buffer BatcherConfig.default oracle207CE [evReqCE] Metrics.init 0).buffer =
      [{ evReqCE with retry_count := 1 }] ∧
    (flush_buffer BatcherConfig.default oracle207CE [evReqCE] Metrics.init 0).result =
      .ok { success_ids := []
            failures := [{ event_id := "e5", message := "boom", code := some "500", retryable := true }]
            success_count := 0
            failure_count := 1 } := by
  decide

/-- C5 amended: which failures appear in the immediate result depends on
the failure path, not on re-queueing.  A chunk that fails with a
chunk-level retryable transport error contributes nothing to the result's
failures list (its envelopes are re-queued, or dropped when their budget
is exhausted), while a chunk that obtains a response — including a 207
multi-status — contributes exactly the response's failure entries to the
result, retryable re-queued ones included. -/
theorem flush_failures_by_branch (config : BatcherConfig)
    (oracle : Nat → HttpOutcome) (fuel : Nat) (chunk : List BatchEvent)
    (st : FlushSt) :
    (∀ e, (send_batch_with_retry config chunk oracle st.k).1 = .error e →
      e.is_retryable = true →
      (processChunk config oracle fuel chunk st).1.failures = st.failures) ∧
    (∀ r, (send_batch_with_retry config chunk oracle st.k).1 = .ok r →
      (processChunk config oracle fuel chunk st).1.failures = st.failures ++ r.failures) := by
  constructor
  · intro e hs hre
    have h413 : isClient413 e = false := by
      cases e <;> simp_all [Error.is_retryable, isClient413]
    unfold processChunk
    simp only [hs]
    simp [h413, hre, applyRetryableErr]
  · intro r hs
    unfold processChunk
    simp only [hs]
    simp [applyOk]

/-- The initial flush state used in the C5 amended-claim witness. -/
def flushStW5 : FlushSt :=
  { events := [evReqCE], success_ids := [], failures := [], retry_queue := []
    metrics := Metrics.init, k := 0, sent := [] }

/-- Witness for the amended C5: a chunk-level retryable `Server` failure
leaves the result's failures list unchanged. -/
theorem flush_failures_by_branch_witness :
    (processChunk BatcherConfig.default (fun _ => serverDown) 1 [evReqCE] flushStW5).1.failures =
      flushStW5.failures :=
  (flush_failures_by_branch BatcherConfig.default (fun _ => serverDown) 1 [evReqCE] flushStW5).1
    (.Server 500 "internal error" none) (by decide) (by decide)

/-- The state read and written by `Batcher::add` (`src/batcher.rs` lines
302-374): the bounded intake channel (capacity `max_queue_size`), the
in-flight buffer inspected by the `DropOldest` eviction, the `dropped`
metric, and the shutdown flag.  A blocking `tx.send` is modelled as
eventually succeeding — the background task drains the channel — so it
appends to the channel queue; the time spent blocked is not modelled. -/
structure AddState where
  chan : List BatchEvent
  buffer : List BatchEvent
  dropped : Nat
  shutdown_flag : Bool
deriving DecidableEq, Repr

/-- `Batcher::add` from `src/batcher.rs`.  The id extraction and
serialization happen before the call in the model (the envelope arrives
with its `id` and `size`); `try_send` fails with `Full` exactly when the
channel holds `max_queue_size` envelopes. -/
def add (config : BatcherConfig) (st : AddState) (ev : BatchEvent) :
    AddState × Except Error Unit :=
  if st.shutdown_flag then (st, .error (.Api "Batcher is shutting down"))
  else if config.max_bytes < ev.size then
    (st, .error (.BatchSizeExceeded ev.size config.max_bytes))
  else
    match config.backpressure_policy with
    | .Block => ({ st with chan := st.chan ++ [ev] }, .ok ())
    | .DropNew =>
      if st.chan.length < config.max_queue_size then
        ({ st with chan := st.chan ++ [ev] }, .ok ())
      else
        ({ st with dropped := st.dropped + 1 }, .error (.Api "Queue full, event dropped"))
    | .DropOldest =>
      if st.chan.length < config.max_queue_size then
        ({ st with chan := st.chan ++ [ev] }, .ok ())
      else
        let st2 := if st.buffer = [] then st
          else { st with buffer := st.buffer.tail, dropped := st.dropped + 1 }
        ({ st2 with chan := st2.chan ++ [ev] }, .ok ())

/-- C8: under `DropOldest`, when `add` finds the intake channel at
capacity and the buffer non-empty, exactly the single oldest buffered
envelope is evicted, the `dropped` metric increments by exactly one, and
the new event is then admitted with the call succeeding.  (How long the
subsequent blocking send waits is timing and is outside the model; the
code evicts from the buffer while capacity is freed by the background
task draining the channel.) -/
theorem drop_oldest_evicts (config : BatcherConfig) (st : AddState) (ev : BatchEvent)
    (x : BatchEvent) (xs : List BatchEvent)
    (hpol : config.backpressure_policy = .DropOldest)
    (hsd : st.shutdown_flag = false)
    (hsize : ev.size ≤ config.max_bytes)
    (hfull : config.max_queue_size ≤ st.chan.length)
    (hbuf : st.buffer = x :: xs) :
    add config st ev =
      ({ st with buffer := xs, dropped := st.dropped + 1, chan := st.chan ++ [ev] },
        .ok ()) := by
  unfold add
  rw [if_neg (by simp [hsd]), if_neg (by omega), hpol]
  simp only []
  rw [if_neg (by omega)]
  simp [hbuf]

/-- The concrete states of the C8 witness: a channel of capacity 1 holding
one envelope, and a buffer holding two. -/
def addStW : AddState :=
  { chan := [{ id := "q1", size := 1, retry_count := 0 }]
    buffer := [{ id := "b1", size := 2, retry_count := 0 },
               { id := "b2", size := 3, retry_count := 0 }]
    dropped := 0
    shutdown_flag := false }

/-- The configuration of the C8 witness. -/
def cfgDropOldest : BatcherConfig :=
  { BatcherConfig.default with max_queue_size := 1, backpressure_policy := .DropOldest }

/-- Witness for C8: admitting a new envelope into the full state `addStW`
evicts exactly the oldest buffered envelope `b1`, increments `dropped` to
1, and succeeds. -/
theorem drop_oldest_evicts_witness :
    add cfgDropOldest addStW { id := "new", size := 4, retry_count := 0 } =
      ({ addStW with
          buffer := [{ id := "b2", size := 3, retry_count := 0 }]
          dropped := 1
          chan := addStW.chan ++ [{ id := "new", size := 4, retry_count := 0 }] },
        .ok ()) :=
  drop_oldest_evicts cfgDropOldest addStW { id := "new", size := 4, retry_count := 0 }
    { id := "b1", size := 2, retry_count := 0 } [{ id := "b2", size := 3, retry_count := 0 }]
    rfl rfl (by decide) (by decide) rfl

/-- The state of one `Batcher` as seen by `shutdown` (`src/batcher.rs`
lines 807-833): the one-shot `shutdown_flag`, the buffer, the metrics,
the network-call counter, and a ghost counter `signals` of shutdown
signals sent to the background task.  The sleeps and the background
task's own signal-triggered flush are timing; the final state of the
buffer is produced by the `flush()` both paths perform. -/
structure BatcherState where
  shutdown_flag : Bool
  buffer : List BatchEvent
  metrics : Metrics
  k : Nat
  signals : Nat
deriving DecidableEq, Repr

/-- `Batcher::shutdown` from `src/batcher.rs`: on first call
(`shutdown_flag.swap(true)` returns `false`) it marks the batcher as
shutting down, signals the background task and flushes; on any later call
it only performs another flush and returns its result. -/
def shutdown (config : BatcherConfig) (oracle : Nat → HttpOutcome)
    (st : BatcherState) : BatcherState × Except Error IngestionResponse :=
  let fr := flush_buffer config oracle st.buffer st.metrics st.k
  if st.shutdown_flag then
    ({ st with
        shutdown_flag := true
        buffer := fr.buffer
        metrics := fr.metrics
        k := fr.k },
      fr.result)
  else
    ({ st with
        shutdown_flag := true
        signals := st.signals + 1
        buffer := fr.buffer
        metrics := fr.metrics
        k := fr.k },
      fr.result)

/-- C9: `shutdown` is idempotent — a second call on a batcher that is
already marked shutting down (and whose buffer the first shutdown left
empty) returns without error, performs only another flush (no further
shutdown signal is sent), and does not change any of the counters the
first shutdown updated (`flushed`, `failed`, `dropped`, `retries`). -/
theorem shutdown_idempotent (config : BatcherConfig) (oracle : Nat → HttpOutcome)
    (st : BatcherState)
    (hflag : st.shutdown_flag = true)
    (hbuf : st.buffer = []) :
    (shutdown config oracle st).2 = .ok emptyResponse ∧
    (shutdown config oracle st).1.shutdown_flag = true ∧
    (shutdown config oracle st).1.signals = st.signals ∧
    (shutdown config oracle st).1.metrics.flushed = st.metrics.flushed ∧
    (shutdown config oracle st).1.metrics.failed = st.metrics.failed ∧
    (shutdown config oracle st).1.metrics.dropped = st.metrics.dropped ∧
    (shutdown config oracle st).1.metrics.retries = st.metrics.retries := by
  unfold shutdown
  simp only [hflag, hbuf, if_true]
  simp [flush_buffer]

/-- The batcher state of the C9 witness: already shutting down, empty
buffer, some accumulated metrics. -/
def shutdownStW : BatcherState :=
  { shutdown_flag := true
    buffer := []
    metrics := { queued := 0, flushed := 7, failed := 2, dropped := 1, retries := 3 }
    k := 5
    signals := 1 }

/-- Witness for C9 at the concrete state `shutdownStW`. -/
theorem shutdown_idempotent_witness :
    (shutdown BatcherConfig.default (fun _ => serverDown) shutdownStW).2 = .ok emptyResponse ∧
    (shutdown BatcherConfig.default (fun _ => serverDown) shutdownStW).1.shutdown_flag = true ∧
    (shutdown BatcherConfig.default (fun _ => serverDown) shutdownStW).1.signals = shutdownStW.signals ∧
    (shutdown BatcherConfig.default (fun _ => serverDown) shutdownStW).1.metrics.flushed = shutdownStW.metrics.flushed ∧
    (shutdown BatcherConfig.default (fun _ => serverDown) shutdownStW).1.metrics.failed = shutdownStW.metrics.failed ∧
    (shutdown BatcherConfig.default (fun _ => serverDown) shutdownStW).1.metrics.dropped = shutdownStW.metrics.dropped ∧
    (shutdown BatcherConfig.default (fun _ => serverDown) shutdownStW).1.metrics.retries = shutdownStW.metrics.retries :=
  shutdown_idempotent BatcherConfig.default (fun _ => serverDown) shutdownStW rfl rfl
